import Mathlib

/-!
Shallow embedding of the temporal feature-aggregation core of the
Real-Madrid-Match-Analyzer repository, and proofs about it.

Tables are embedded as lists of rows; a pandas DataFrame column that can
hold NaN is an `Option ℚ` field (NaN = `none`), matching pandas semantics:
comparisons against NaN are `False`, and `sum()` skips NaN.  Dates are
encoded as natural numbers in `yyyymmdd` form, which preserves the
chronological order used by every filter in the source.

Sources embedded here:
  * `src/finall_dataframe/rm_players/season_manager.py`  (SeasonManager)
  * `src/finall_dataframe/rm_team/season_calculator.py`  (SeasonCalculator)
  * `src/finall_dataframe/rm_team/stats_calculator.py`   (StatsCalculator)
  * `src/finall_dataframe/rm_team/utils.py`              (NaN check)
  * `src/finall_dataframe/rm_h2h/h2h_calculator.py`      (H2H functions)
  * `src/finall_dataframe/opp_team/stats_functions.py`   (wrappers)
  * `src/finall_dataframe/rm_team/config.py`, `rm_h2h/config.py`,
    `data_processing/const_variable.py`                  (constants)
-/

/- The arithmetic of `ℚ` is used throughout; its kernel reduction is needed
by the concrete evaluation theorems below. -/
attribute [local semireducible] Rat.mul Rat.inv Rat.add Rat.sub

deriving instance DecidableEq for Except

/-- One row of a match table.  Field names follow the CSV column names used
by the source.  `goals` and `real_result` are the Real-Madrid-specific
preprocessed columns of `rm_matches`; `PPM_H` / `PPM_A` are the pre-match
points-per-match of the home / away side stored on the row. -/
structure MatchRow where
  match_date : ℕ
  home_team_id : ℤ
  away_team_id : ℤ
  home_goals : Option ℚ
  away_goals : Option ℚ
  goals : Option ℚ
  real_result : Option ℚ
  PPM_H : Option ℚ
  PPM_A : Option ℚ
  home_points : Option ℚ
  away_points : Option ℚ
  RM_coach_rating_EDI : Option ℚ
  RM_team_rating_EDI : Option ℚ
  rival_rating_EDI : Option ℚ
deriving DecidableEq

/-- Pandas comparison `a > b` between two nullable columns: any comparison
involving NaN is False. -/
def oGT (a b : Option ℚ) : Bool :=
  match a, b with
  | some x, some y => decide (y < x)
  | _, _ => false

/-- Pandas comparison `a == b` between two nullable columns: NaN equals
nothing (including itself). -/
def oEQ (a b : Option ℚ) : Bool :=
  match a, b with
  | some x, some y => decide (x = y)
  | _, _ => false

/-- Pandas comparison of a nullable column with a scalar, `a > c`. -/
def oGTc (a : Option ℚ) (c : ℚ) : Bool :=
  match a with
  | some x => decide (c < x)
  | none => false

/-- Pandas comparison of a nullable column with a scalar, `a >= c`. -/
def oGEc (a : Option ℚ) (c : ℚ) : Bool :=
  match a with
  | some x => decide (c ≤ x)
  | none => false

/-- Pandas comparison of a nullable column with a scalar, `a <= c`. -/
def oLEc (a : Option ℚ) (c : ℚ) : Bool :=
  match a with
  | some x => decide (x ≤ c)
  | none => false

/-- Pandas comparison of a nullable column with a scalar, `a == c`. -/
def oEQc (a : Option ℚ) (c : ℚ) : Bool :=
  match a with
  | some x => decide (x = c)
  | none => false

/-- Pandas `Series.sum()` over a nullable column: NaN entries are skipped,
an all-NaN or empty column sums to 0. -/
def qsum (l : List (Option ℚ)) : ℚ :=
  l.foldr (fun o acc => o.getD 0 + acc) 0

/-- Insertion step of `sort_values('match_date', ascending=False)`. -/
def insertDescByDate (m : MatchRow) : List MatchRow → List MatchRow
  | [] => [m]
  | x :: xs =>
    if x.match_date ≤ m.match_date then m :: x :: xs
    else x :: insertDescByDate m xs

/-- `sort_values('match_date', ascending=False)`: most recent match first. -/
def sortDescByDate : List MatchRow → List MatchRow
  | [] => []
  | x :: xs => insertDescByDate x (sortDescByDate xs)

/-! ## Constants (rm_team/config.py, rm_h2h/config.py) -/

def WIN_POINTS : ℚ := 3

def DRAW_POINTS : ℚ := 1

def TOP_TIER_MIN_PPM : ℚ := 19/10

def MID_TIER_MIN_PPM : ℚ := 12/10

def MID_TIER_MAX_PPM : ℚ := 19/10

def LOW_TIER_MAX_PPM : ℚ := 12/10

def REAL_MADRID_ID : ℤ := 1

/-! ## SeasonManager (rm_players/season_manager.py, SEASON_DATES from
data_processing/const_variable.py) -/

/-- A season entry of `SeasonManager.seasons`. -/
structure Season where
  name : String
  start_date : ℕ
  end_date : ℕ
deriving DecidableEq

def season_19_20 : Season := ⟨"2019-2020", 20190816, 20200719⟩

def season_20_21 : Season := ⟨"2020-2021", 20200912, 20210523⟩

def season_21_22 : Season := ⟨"2021-2022", 20210813, 20220522⟩

def season_22_23 : Season := ⟨"2022-2023", 20220812, 20230604⟩

def season_23_24 : Season := ⟨"2023-2024", 20230811, 20240526⟩

def season_24_25 : Season := ⟨"2024-2025", 20240816, 20250316⟩

/-- The six seasons built in `SeasonManager.__init__` from `SEASON_DATES`. -/
def seasons : List Season :=
  [season_19_20, season_20_21, season_21_22, season_22_23, season_23_24,
   season_24_25]

/-- `SeasonManager.get_season`: first season whose inclusive date range
contains the date, `None` otherwise. -/
def get_season (d : ℕ) : Option Season :=
  seasons.find? (fun s => decide (s.start_date ≤ d) && decide (d ≤ s.end_date))

/-- Result of `SeasonManager.get_previous_season`: `noSeason` embeds the
Python `None`, `firstSeason` embeds the Python `True` sentinel returned for
the earliest season, `prev s` embeds the preceding season dict. -/
inductive PrevSeason where
  | noSeason
  | firstSeason
  | prev (s : Season)
deriving DecidableEq

/-- Index search of `get_previous_season`:
`next(i for i, s in enumerate(self.seasons) if s["name"] == season["name"])`,
with the `StopIteration` case embedded as `none`. -/
def find_season_index : List Season → String → Option ℕ
  | [], _ => none
  | s :: rest, name =>
    if s.name = name then some 0
    else (find_season_index rest name).map (· + 1)

/-- `SeasonManager.get_previous_season`.  An absent / falsy argument yields
`None`; an unknown season name yields `None`; index 0 yields the `True`
sentinel; otherwise the season one position earlier in the list.  The inner
`none` branch of `seasons.get?` is unreachable because the found index is
within the list. -/
def get_previous_season (season : Option Season) : PrevSeason :=
  match season with
  | none => .noSeason
  | some s =>
    match find_season_index seasons s.name with
    | none => .noSeason
    | some 0 => .firstSeason
    | some (i + 1) =>
      match seasons.get? i with
      | some t => .prev t
      | none => .noSeason

/-! ## StatsCalculator (rm_team/stats_calculator.py) -/

/-- `check_NaN_column_in_RM_matches` (rm_team/utils.py) restricted to the
selected matches: it reports `True` exactly when none of the checked
columns holds NaN.  The non-nullable columns of its list (`match_date`,
`home_team`, `away_team`) are total in this model; the nullable checked
columns are embedded as the `Option` fields below, all columns being
assumed present in the table. -/
def check_NaN_column_in_RM_matches (l : List MatchRow) : Bool :=
  l.all (fun m =>
    m.home_goals.isSome && m.away_goals.isSome && m.home_points.isSome &&
    m.away_points.isSome && m.RM_coach_rating_EDI.isSome &&
    m.RM_team_rating_EDI.isSome && m.rival_rating_EDI.isSome)

/-- The five values returned by `_calculate_real_madrid_last_5`. -/
structure RMStats where
  RM_G_SCO_L5 : ℚ
  RM_G_CON_L5 : ℚ
  RM_GDIF_L5 : ℚ
  RM_PPM_L5 : ℚ
  RM_OPP_PPM_L5 : ℚ
deriving DecidableEq

/-- The five values returned by `_calculate_opponent_last_5`. -/
structure OppStats where
  OP_G_SCO_L5 : ℚ
  OP_G_CON_L5 : ℚ
  OP_GDIF_L5 : ℚ
  OP_PPM_L5 : ℚ
  OP_OPP_PPM_L5 : ℚ
deriving DecidableEq

/-- Result of `_calculate_real_madrid_last_5`: the stats dictionary, or the
Python `False` used both for "no matches" and for a failed NaN check. -/
inductive RMl5Result where
  | stats (s : RMStats)
  | falseR
deriving DecidableEq

/-- Result of `_calculate_opponent_last_5`: the stats dictionary, `np.nan`
(no matches, or failed NaN check), or `False` (internal exception). -/
inductive OppL5Result where
  | stats (s : OppStats)
  | nanR
  | falseR
deriving DecidableEq

/-- Result of `calculate_last_5_stats`, which dispatches on the team id. -/
inductive L5Result where
  | rmR (r : RMl5Result)
  | oppR (r : OppL5Result)
deriving DecidableEq

/-- Body of `_calculate_real_madrid_last_5` after the date filter: sort
descending, take the `matches_count` most recent, bail out to `False` on an
empty selection or a failed NaN check, else average each quantity over the
selected matches. -/
def rm_last_5_core (filtered_matches : List MatchRow) (matches_count : ℕ) :
    RMl5Result :=
  let sorted_matches := sortDescByDate filtered_matches
  let last_matches := sorted_matches.take matches_count
  if last_matches.isEmpty then .falseR
  else if !check_NaN_column_in_RM_matches last_matches then .falseR
  else
    let k : ℚ := (last_matches.length : ℚ)
    let rm_goals := qsum (last_matches.map (·.goals))
    let rm_conceded_goals :=
      qsum ((last_matches.filter (fun m => m.home_team_id == 1)).map
        (·.away_goals)) +
      qsum ((last_matches.filter (fun m => m.away_team_id == 1)).map
        (·.home_goals))
    let rm_difference := rm_goals - rm_conceded_goals
    let rm_points : ℚ :=
      ((last_matches.countP (fun m => oEQc m.real_result 1) : ℚ)) *
        WIN_POINTS +
      ((last_matches.countP (fun m => oEQc m.real_result (1/2)) : ℚ)) *
        DRAW_POINTS
    let rm_opp_ppm :=
      qsum ((last_matches.filter (fun m => m.home_team_id == 1)).map
        (·.PPM_A)) +
      qsum ((last_matches.filter (fun m => m.away_team_id == 1)).map
        (·.PPM_H))
    .stats ⟨rm_goals / k, rm_conceded_goals / k, rm_difference / k,
      rm_points / k, rm_opp_ppm / k⟩

/-- `_calculate_real_madrid_last_5`: filter `rm_matches` to dates strictly
before `match_date`, then `rm_last_5_core`. -/
def calculate_real_madrid_last_5 (rm_matches : List MatchRow)
    (match_date : ℕ) (matches_count : ℕ) : RMl5Result :=
  rm_last_5_core
    (rm_matches.filter (fun m => decide (m.match_date < match_date)))
    matches_count

/-- Body of `_calculate_opponent_last_5` after the date-and-team filter. -/
def opp_last_5_core (filtered_matches : List MatchRow) (team_id : ℤ)
    (matches_count : ℕ) : OppL5Result :=
  let sorted_matches := sortDescByDate filtered_matches
  let last_matches := sorted_matches.take matches_count
  if last_matches.isEmpty then .nanR
  else if !check_NaN_column_in_RM_matches last_matches then .nanR
  else
    let k : ℚ := (last_matches.length : ℚ)
    let opp_goals :=
      qsum ((last_matches.filter (fun m => m.home_team_id == team_id)).map
        (·.home_goals)) +
      qsum ((last_matches.filter (fun m => m.away_team_id == team_id)).map
        (·.away_goals))
    let opp_conceded_goals :=
      qsum ((last_matches.filter (fun m => m.home_team_id == team_id)).map
        (·.away_goals)) +
      qsum ((last_matches.filter (fun m => m.away_team_id == team_id)).map
        (·.home_goals))
    let opp_difference := opp_goals - opp_conceded_goals
    let home_wins := last_matches.countP (fun m =>
      m.home_team_id == team_id && oGT m.home_goals m.away_goals)
    let away_wins := last_matches.countP (fun m =>
      m.away_team_id == team_id && oGT m.away_goals m.home_goals)
    let draws := last_matches.countP (fun m => oEQ m.home_goals m.away_goals)
    let opp_points : ℚ :=
      ((home_wins + away_wins : ℕ) : ℚ) * WIN_POINTS +
      ((draws : ℕ) : ℚ) * DRAW_POINTS
    let ppm_of_rivals :=
      qsum ((last_matches.filter (fun m => m.home_team_id == team_id)).map
        (·.PPM_A)) +
      qsum ((last_matches.filter (fun m => m.away_team_id == team_id)).map
        (·.PPM_H))
    .stats ⟨opp_goals / k, opp_conceded_goals / k, opp_difference / k,
      opp_points / k, ppm_of_rivals / k⟩

/-- `_calculate_opponent_last_5`: filter `opp_matches` to matches of
`team_id` strictly before `match_date`, then `opp_last_5_core`. -/
def calculate_opponent_last_5 (opp_matches : List MatchRow) (match_date : ℕ)
    (team_id : ℤ) (matches_count : ℕ) : OppL5Result :=
  opp_last_5_core
    (opp_matches.filter (fun m =>
      decide (m.match_date < match_date) &&
      (m.home_team_id == team_id || m.away_team_id == team_id)))
    team_id matches_count

/-- `calculate_last_5_stats`: dispatch to the Real-Madrid branch for
`team_id == 1`, else to the opponent branch. -/
def calculate_last_5_stats (rm_matches opp_matches : List MatchRow)
    (match_date : ℕ) (team_id : ℤ) (matches_count : ℕ) : L5Result :=
  if team_id == 1 then
    .rmR (calculate_real_madrid_last_5 rm_matches match_date matches_count)
  else
    .oppR (calculate_opponent_last_5 opp_matches match_date team_id
      matches_count)

/-! ## HeadToHeadCalculator (rm_h2h/h2h_calculator.py) -/

/-- The dictionary returned by `calculate_h2h_stats`. -/
structure H2HStats where
  win_ratio : ℚ
  points_per_match : ℚ
  goals_balance : ℚ
deriving DecidableEq

/-- The pair condition of `get_h2h_matches`: Real Madrid against `opp_id`,
in either home/away role. -/
def h2h_pair (opp_id : ℤ) (m : MatchRow) : Bool :=
  (m.home_team_id == REAL_MADRID_ID && m.away_team_id == opp_id) ||
  (m.home_team_id == opp_id && m.away_team_id == REAL_MADRID_ID)

/-- Body of `get_h2h_matches` after the filter.  `validate_h2h_dataframe`
always succeeds here because every required column exists by construction
of `MatchRow`.  The `if last_n:` of the source is Python truthiness: a cap
is applied only for a non-`None`, non-zero `last_n`. -/
def get_h2h_core (h2h_matches : List MatchRow) (last_n : Option ℕ) :
    Option (List MatchRow) :=
  if h2h_matches.isEmpty then none
  else
    let sorted := sortDescByDate h2h_matches
    match last_n with
    | some k => if k ≠ 0 then some (sorted.take k) else some sorted
    | none => some sorted

/-- `get_h2h_matches`: meetings of Real Madrid and `opp_id` strictly before
`match_date`, most recent first, optionally capped; `None` when there are
no such meetings. -/
def get_h2h_matches (df : List MatchRow) (opp_id : ℤ) (match_date : ℕ)
    (last_n : Option ℕ) : Option (List MatchRow) :=
  get_h2h_core
    (df.filter (fun m =>
      decide (m.match_date < match_date) && h2h_pair opp_id m))
    last_n

/-- Statistics block shared by `calculate_h2h_stats` and
`calculate_h2h_overall_ppm`, computed over an already-selected nonempty
list of meetings (the two source functions repeat this code verbatim). -/
def h2h_stats_of (h2h_matches : List MatchRow) : H2HStats :=
  let rm_home_wins := h2h_matches.countP (fun m =>
    m.home_team_id == REAL_MADRID_ID && oGT m.home_goals m.away_goals)
  let rm_away_wins := h2h_matches.countP (fun m =>
    m.away_team_id == REAL_MADRID_ID && oGT m.away_goals m.home_goals)
  let draws := h2h_matches.countP (fun m => oEQ m.home_goals m.away_goals)
  let total_matches : ℚ := (h2h_matches.length : ℚ)
  let total_wins := rm_home_wins + rm_away_wins
  let win_ratio := (total_wins : ℚ) / total_matches
  let points_per_match :=
    ((total_wins : ℚ) * WIN_POINTS + (draws : ℚ) * DRAW_POINTS) /
      total_matches
  let rm_goals :=
    qsum ((h2h_matches.filter (fun m =>
      m.home_team_id == REAL_MADRID_ID)).map (·.home_goals)) +
    qsum ((h2h_matches.filter (fun m =>
      m.away_team_id == REAL_MADRID_ID)).map (·.away_goals))
  let opp_goals :=
    qsum ((h2h_matches.filter (fun m =>
      m.home_team_id == REAL_MADRID_ID)).map (·.away_goals)) +
    qsum ((h2h_matches.filter (fun m =>
      m.away_team_id == REAL_MADRID_ID)).map (·.home_goals))
  ⟨win_ratio, points_per_match, rm_goals - opp_goals⟩

/-- `calculate_h2h_stats`: win ratio, points per match and goal balance of
Real Madrid over the last `last_n` meetings with `opp_id` strictly before
`match_date`; `None` when there is no prior meeting. -/
def calculate_h2h_stats (df : List MatchRow) (opp_id : ℤ) (match_date : ℕ)
    (last_n : ℕ) : Option H2HStats :=
  match get_h2h_matches df opp_id match_date (some last_n) with
  | none => none
  | some ms => if ms.isEmpty then none else some (h2h_stats_of ms)

/-- `calculate_h2h_overall_ppm`: the same points-per-match formula over the
entire history of meetings (no cap). -/
def calculate_h2h_overall_ppm (df : List MatchRow) (opp_id : ℤ)
    (match_date : ℕ) : Option ℚ :=
  match get_h2h_matches df opp_id match_date none with
  | none => none
  | some ms =>
    if ms.isEmpty then none else some (h2h_stats_of ms).points_per_match

/-- `is_playing_before`: whether any prior meeting exists. -/
def is_playing_before (df : List MatchRow) (match_date : ℕ) (team_id : ℤ) :
    Bool :=
  match get_h2h_matches df team_id match_date none with
  | none => false
  | some ms => !ms.isEmpty

/-! ## SeasonCalculator (rm_team/season_calculator.py) -/

/-- `get_all_opp_matches`: all rows of the merged all-season table in which
the team appears on either side; Python `None` (embedded as `none`) when
there is no such row.  Note the emptiness test inspects the whole table,
with no date restriction. -/
def get_all_opp_matches (all_matches : List MatchRow) (team_id : ℤ) :
    Option (List MatchRow) :=
  let team_matches := all_matches.filter (fun m =>
    m.home_team_id == team_id || m.away_team_id == team_id)
  if team_matches.isEmpty then none else some team_matches

/-- A Python value returned by the season calculator: a number, `np.nan`,
`None`, or `False`. -/
inductive FVal where
  | num (q : ℚ)
  | nanV
  | noneV
  | falseV
deriving DecidableEq

/-- Total points of the non-Real-Madrid branch of
`calculate_team_points_per_match_season`: wins and draws are counted from
goal comparisons, split by home/away role. -/
def season_ppm_points_opp (team_id : ℤ)
    (filtered_matches : List MatchRow) : ℚ :=
  let home_games := filtered_matches.filter (fun m =>
    m.home_team_id == team_id)
  let away_games := filtered_matches.filter (fun m =>
    m.away_team_id == team_id)
  let home_wins := (home_games.filter (fun m =>
    oGT m.home_goals m.away_goals)).length
  let away_wins := (away_games.filter (fun m =>
    oGT m.away_goals m.home_goals)).length
  let home_draws := (home_games.filter (fun m =>
    oEQ m.home_goals m.away_goals)).length
  let away_draws := (away_games.filter (fun m =>
    oEQ m.away_goals m.home_goals)).length
  let total_wins := home_wins + away_wins
  let total_draws := home_draws + away_draws
  (total_wins : ℚ) * WIN_POINTS + (total_draws : ℚ) * DRAW_POINTS

/-- Non-Real-Madrid branch of `calculate_team_points_per_match_season`
after the window filter: `np.nan` on an empty window, else the average. -/
def season_ppm_opp_core (team_id : ℤ)
    (filtered_matches : List MatchRow) : FVal :=
  if filtered_matches.isEmpty then .nanV
  else .num (season_ppm_points_opp team_id filtered_matches /
    (filtered_matches.length : ℚ))

/-- Total points of the Real-Madrid branch: counted from the preprocessed
`real_result` column (1 = win, 0.5 = draw). -/
def season_ppm_rm_points (filtered_matches : List MatchRow) : ℚ :=
  ((filtered_matches.countP (fun m => oEQc m.real_result 1) : ℚ)) *
    WIN_POINTS +
  ((filtered_matches.countP (fun m => oEQc m.real_result (1/2)) : ℚ)) *
    DRAW_POINTS

/-- Real-Madrid branch of `calculate_team_points_per_match_season` after
the window filter. -/
def season_ppm_rm_core (filtered_matches : List MatchRow) : FVal :=
  if filtered_matches.isEmpty then .nanV
  else .num (season_ppm_rm_points filtered_matches /
    (filtered_matches.length : ℚ))

/-- `SeasonCalculator.calculate_team_points_per_match_season`.  Branch
structure mirrors the source: for a non-focal team the all-matches fetch
deriving DecidableEq
(and its `None` early return) happens before the first-season check, and a
failed season lookup reaches `previous_season["start_date"]` on `None`,
which raises (embedded as `.error`); for the focal team a failed lookup is
caught by the `isinstance` guard and returns 0. -/

def calculate_team_points_per_match_season
    (rm_matches all_matches : List MatchRow) (team_id : ℤ)
    (match_date : ℕ) : Except String FVal :=
  let previous_season := get_previous_season (get_season match_date)
  if team_id ≠ 1 then
    match get_all_opp_matches all_matches team_id with
    | none => .ok .noneV
    | some opp_ms =>
      match previous_season with
      | .firstSeason => .ok (.num 0)
      | .noSeason => .error "TypeError: NoneType object is not subscriptable"
      | .prev ps =>
        .ok (season_ppm_opp_core team_id (opp_ms.filter (fun m =>
          decide (ps.start_date ≤ m.match_date) &&
          decide (m.match_date < match_date))))
  else
    match previous_season with
    | .firstSeason => .ok (.num 0)
    | .noSeason => .ok (.num 0)
    | .prev ps =>
      .ok (season_ppm_rm_core (rm_matches.filter (fun m =>
        decide (ps.start_date ≤ m.match_date) &&
        decide (m.match_date < match_date))))

/-- Tier-membership filter of the non-focal branch of
`calculate_team_stats_against_tier`: the PPM tested is the one of the side
that is not `team_id` (`PPM_A` for home games, `PPM_H` for away games);
with no upper bound the test is strict (`> min_ppm`), with an upper bound
both bounds are inclusive. -/
def tier_filter_opp (team_id : ℤ) (min_ppm : ℚ) (max_ppm : Option ℚ)
    (filtered_matches : List MatchRow) : List MatchRow :=
  match max_ppm with
  | none =>
    filtered_matches.filter (fun m =>
      (m.home_team_id == team_id && oGTc m.PPM_A min_ppm) ||
      (m.away_team_id == team_id && oGTc m.PPM_H min_ppm))
  | some mx =>
    filtered_matches.filter (fun m =>
      (m.home_team_id == team_id && oGEc m.PPM_A min_ppm &&
        oLEc m.PPM_A mx) ||
      (m.away_team_id == team_id && oGEc m.PPM_H min_ppm &&
        oLEc m.PPM_H mx))

/-- Tier-membership filter of the focal (Real-Madrid) branch: the test is
applied to both PPM columns, without selecting the opponent's side. -/
def tier_filter_rm (min_ppm : ℚ) (max_ppm : Option ℚ)
    (filtered_matches : List MatchRow) : List MatchRow :=
  match max_ppm with
  | none =>
    filtered_matches.filter (fun m =>
      oGTc m.PPM_H min_ppm || oGTc m.PPM_A min_ppm)
  | some mx =>
    filtered_matches.filter (fun m =>
      (oGEc m.PPM_H min_ppm && oLEc m.PPM_H mx) ||
      (oGEc m.PPM_A min_ppm && oLEc m.PPM_A mx))

/-- Non-focal branch of `calculate_team_stats_against_tier` after the
window filter: select the tier, return `(nan, nan)` on an empty tier, else
the per-match averages of goals scored and points. -/
def tier_stats_opp_core (team_id : ℤ) (min_ppm : ℚ) (max_ppm : Option ℚ)
    (filtered_matches : List MatchRow) : FVal × FVal :=
  let tier_matches := tier_filter_opp team_id min_ppm max_ppm
    filtered_matches
  if tier_matches.isEmpty then (.nanV, .nanV)
  else
    let home_games := tier_matches.filter (fun m =>
      m.home_team_id == team_id)
    let away_games := tier_matches.filter (fun m =>
      m.away_team_id == team_id)
    if home_games.isEmpty && away_games.isEmpty then (.nanV, .nanV)
    else
      let goals_scored :=
        qsum (home_games.map (·.home_goals)) +
        qsum (away_games.map (·.away_goals))
      let home_wins := (home_games.filter (fun m =>
        oGT m.home_goals m.away_goals)).length
      let away_wins := (away_games.filter (fun m =>
        oGT m.away_goals m.home_goals)).length
      let home_draws := (home_games.filter (fun m =>
        oEQ m.home_goals m.away_goals)).length
      let away_draws := (away_games.filter (fun m =>
        oEQ m.away_goals m.home_goals)).length
      let total_points : ℚ :=
        ((home_wins + away_wins : ℕ) : ℚ) * WIN_POINTS +
        ((home_draws + away_draws : ℕ) : ℚ) * DRAW_POINTS
      ((.num (goals_scored / (tier_matches.length : ℚ))),
       (.num (total_points / (tier_matches.length : ℚ))))

/-- Focal branch of `calculate_team_stats_against_tier` after the window
filter: goals come from the preprocessed `goals` column and points from
`real_result`. -/
def tier_stats_rm_core (min_ppm : ℚ) (max_ppm : Option ℚ)
    (filtered_matches : List MatchRow) : FVal × FVal :=
  let tier_matches := tier_filter_rm min_ppm max_ppm filtered_matches
  if tier_matches.isEmpty then (.nanV, .nanV)
  else
    let goals_scored := qsum (tier_matches.map (·.goals))
    let points := season_ppm_rm_points tier_matches
    ((.num (goals_scored / (tier_matches.length : ℚ))),
     (.num (points / (tier_matches.length : ℚ))))

/-- `SeasonCalculator.calculate_team_stats_against_tier`.  Windows mirror
the source exactly: the non-focal branch uses `start_date <= date < d`
(and the fixed date 2019-08-01 in the first season); the focal branch uses
the strict `start_date < date < d` and returns `(False, False)` both for
the first season and for a failed lookup; the non-focal branch reaches
`previous_season["start_date"]` on `None` and raises. -/
def calculate_team_stats_against_tier
    (rm_matches all_matches : List MatchRow) (team_id : ℤ) (match_date : ℕ)
    (min_ppm : ℚ) (max_ppm : Option ℚ) : Except String (FVal × FVal) :=
  let previous_season := get_previous_season (get_season match_date)
  if team_id ≠ 1 then
    match get_all_opp_matches all_matches team_id with
    | none => .ok (.falseV, .falseV)
    | some opp_ms =>
      match previous_season with
      | .firstSeason =>
        .ok (tier_stats_opp_core team_id min_ppm max_ppm
          (opp_ms.filter (fun m =>
            decide (20190801 ≤ m.match_date) &&
            decide (m.match_date < match_date))))
      | .noSeason =>
        .error "TypeError: NoneType object is not subscriptable"
      | .prev ps =>
        .ok (tier_stats_opp_core team_id min_ppm max_ppm
          (opp_ms.filter (fun m =>
            decide (m.match_date < match_date) &&
            decide (ps.start_date ≤ m.match_date))))
  else
    match previous_season with
    | .firstSeason => .ok (.falseV, .falseV)
    | .noSeason => .ok (.falseV, .falseV)
    | .prev ps =>
      .ok (tier_stats_rm_core min_ppm max_ppm
        (rm_matches.filter (fun m =>
          decide (m.match_date < match_date) &&
          decide (ps.start_date < m.match_date))))

/-- `calculate_team_goals_against_top`: TOP tier is `min_ppm = 1.9` with no
upper bound. -/
def calculate_team_goals_against_top (rm_matches all_matches : List MatchRow)
    (team_id : ℤ) (match_date : ℕ) : Except String FVal :=
  (calculate_team_stats_against_tier rm_matches all_matches team_id
    match_date TOP_TIER_MIN_PPM none).map Prod.fst

/-- `calculate_team_points_against_top`. -/
def calculate_team_points_against_top
    (rm_matches all_matches : List MatchRow) (team_id : ℤ)
    (match_date : ℕ) : Except String FVal :=
  (calculate_team_stats_against_tier rm_matches all_matches team_id
    match_date TOP_TIER_MIN_PPM none).map Prod.snd

/-- `calculate_team_goals_against_mid`: MID tier is `[1.2, 1.9]`. -/
def calculate_team_goals_against_mid (rm_matches all_matches : List MatchRow)
    (team_id : ℤ) (match_date : ℕ) : Except String FVal :=
  (calculate_team_stats_against_tier rm_matches all_matches team_id
    match_date MID_TIER_MIN_PPM (some MID_TIER_MAX_PPM)).map Prod.fst

/-- `calculate_team_points_against_mid`. -/
def calculate_team_points_against_mid
    (rm_matches all_matches : List MatchRow) (team_id : ℤ)
    (match_date : ℕ) : Except String FVal :=
  (calculate_team_stats_against_tier rm_matches all_matches team_id
    match_date MID_TIER_MIN_PPM (some MID_TIER_MAX_PPM)).map Prod.snd

/-- `calculate_team_goals_against_low`: LOW tier is `[0, 1.2]`. -/
def calculate_team_goals_against_low (rm_matches all_matches : List MatchRow)
    (team_id : ℤ) (match_date : ℕ) : Except String FVal :=
  (calculate_team_stats_against_tier rm_matches all_matches team_id
    match_date 0 (some LOW_TIER_MAX_PPM)).map Prod.fst

/-- `calculate_team_points_against_low`. -/
def calculate_team_points_against_low
    (rm_matches all_matches : List MatchRow) (team_id : ℤ)
    (match_date : ℕ) : Except String FVal :=
  (calculate_team_stats_against_tier rm_matches all_matches team_id
    match_date 0 (some LOW_TIER_MAX_PPM)).map Prod.snd

/-! ## Opponent wrappers (opp_team/stats_functions.py)

Each wrapper runs `if result:` on the value returned by
`_calculate_opponent_last_5`.  Python truthiness: a nonempty dict and
`float('nan')` are both truthy, `False` is falsy.  So the stats dict is
subscripted normally, `np.nan` is subscripted as a float and raises
`TypeError`, and only `False` reaches the `return np.nan` line. -/

/-- `calculate_OP_G_SCO_L5`. -/
def calculate_OP_G_SCO_L5 (opp_matches : List MatchRow) (match_date : ℕ)
    (team_id : ℤ) : Except String FVal :=
  match calculate_opponent_last_5 opp_matches match_date team_id 5 with
  | .stats s => .ok (.num s.OP_G_SCO_L5)
  | .nanR => .error "TypeError: float object is not subscriptable"
  | .falseR => .ok .nanV

/-- `calculate_OP_G_CON_L5`. -/
def calculate_OP_G_CON_L5 (opp_matches : List MatchRow) (match_date : ℕ)
    (team_id : ℤ) : Except String FVal :=
  match calculate_opponent_last_5 opp_matches match_date team_id 5 with
  | .stats s => .ok (.num s.OP_G_CON_L5)
  | .nanR => .error "TypeError: float object is not subscriptable"
  | .falseR => .ok .nanV

/-- `calculate_OP_GDIF_L5`. -/
def calculate_OP_GDIF_L5 (opp_matches : List MatchRow) (match_date : ℕ)
    (team_id : ℤ) : Except String FVal :=
  match calculate_opponent_last_5 opp_matches match_date team_id 5 with
  | .stats s => .ok (.num s.OP_GDIF_L5)
  | .nanR => .error "TypeError: float object is not subscriptable"
  | .falseR => .ok .nanV

/-- `calculate_OP_PPM_L5`. -/
def calculate_OP_PPM_L5 (opp_matches : List MatchRow) (match_date : ℕ)
    (team_id : ℤ) : Except String FVal :=
  match calculate_opponent_last_5 opp_matches match_date team_id 5 with
  | .stats s => .ok (.num s.OP_PPM_L5)
  | .nanR => .error "TypeError: float object is not subscriptable"
  | .falseR => .ok .nanV

/-- `calculate_OP_OPP_POS_L5` (reads the `OP_OPP_PPM_L5` key). -/
def calculate_OP_OPP_POS_L5 (opp_matches : List MatchRow) (match_date : ℕ)
    (team_id : ℤ) : Except String FVal :=
  match calculate_opponent_last_5 opp_matches match_date team_id 5 with
  | .stats s => .ok (.num s.OP_OPP_PPM_L5)
  | .nanR => .error "TypeError: float object is not subscriptable"
  | .falseR => .ok .nanV

/-! ## Concrete rows used by the evaluation theorems below -/

/-- A blank row: every nullable column NaN, ids and date zero. -/
def row0 : MatchRow :=
  ⟨0, 0, 0, none, none, none, none, none, none, none, none, none, none, none⟩

/-- Real Madrid 3-0 home win against team 2 on 2021-01-01. -/
def h2h_m1 : MatchRow :=
  { row0 with
    match_date := 20210101
    home_team_id := 1
    away_team_id := 2
    home_goals := some 3
    away_goals := some 0 }

/-- A 1-1 draw away against team 2 on 2021-06-01. -/
def h2h_m2 : MatchRow :=
  { row0 with
    match_date := 20210601
    home_team_id := 2
    away_team_id := 1
    home_goals := some 1
    away_goals := some 1 }

/-- A 2-1 away loss against team 2 on 2022-01-01. -/
def h2h_m3 : MatchRow :=
  { row0 with
    match_date := 20220101
    home_team_id := 2
    away_team_id := 1
    home_goals := some 2
    away_goals := some 1 }

/-- A previous-season-window match of team 2 whose opponent (team 3, the
away side being team 2's rival is the home side here: team 2 is home, so
the opponent PPM is `PPM_A`) has pre-match PPM exactly 1.9. -/
def cex_top_boundary : MatchRow :=
  { row0 with
    match_date := 20201001
    home_team_id := 2
    away_team_id := 3
    home_goals := some 1
    away_goals := some 0
    PPM_H := some 1
    PPM_A := some (19/10) }

/-- A Real-Madrid home match whose own pre-match PPM (`PPM_H`) is 2.5 but
whose opponent's (`PPM_A`) is only 1.0. -/
def cex_rm_own_ppm : MatchRow :=
  { row0 with
    match_date := 20201001
    home_team_id := 1
    away_team_id := 2
    home_goals := some 2
    away_goals := some 0
    goals := some 2
    real_result := some 1
    PPM_H := some (5/2)
    PPM_A := some 1 }

/-- A drawn match of team 2 whose opponent's pre-match PPM is exactly 1.2,
the shared boundary of the MID and LOW tiers. -/
def cex_tier_overlap : MatchRow :=
  { row0 with
    match_date := 20201001
    home_team_id := 2
    away_team_id := 3
    home_goals := some 1
    away_goals := some 1
    PPM_H := some 1
    PPM_A := some (12/10) }

/-- A Real-Madrid win dated 2020-10-01, inside the 2020-2021 season, i.e.
outside the 2019-2020 season that precedes an as-of date of 2021-04-01. -/
def cex_current_season : MatchRow :=
  { row0 with
    match_date := 20201001
    home_team_id := 1
    away_team_id := 5
    home_goals := some 2
    away_goals := some 0
    goals := some 2
    real_result := some 1 }

/-- A match of team 2 inside the known seasons, used together with an
as-of date that no season covers. -/
def cex_outside_seasons : MatchRow :=
  { row0 with
    match_date := 20190901
    home_team_id := 2
    away_team_id := 3 }

/-- A match of team 2 dated 2025-01-01, in the future of the as-of date
2022-01-01 used by the look-ahead counterexample. -/
def cex_future : MatchRow :=
  { row0 with
    match_date := 20250101
    home_team_id := 2
    away_team_id := 3 }

/-- The PPM column of the side that is not `team_id` (requires the team to
be on exactly one side to be meaningful). -/
def opp_ppm_of (team_id : ℤ) (m : MatchRow) : Option ℚ :=
  if m.home_team_id == team_id then m.PPM_A else m.PPM_H

/-- Points earned by `team_id` in one match, derived from goal comparison
exactly as the non-focal branch counts wins and draws (3 / 1 / 0, with
NaN-goal comparisons false). -/
def points_for_team (team_id : ℤ) (m : MatchRow) : ℚ :=
  if m.home_team_id == team_id then
    (if oGT m.home_goals m.away_goals then WIN_POINTS
     else if oEQ m.home_goals m.away_goals then DRAW_POINTS
     else 0)
  else
    (if oGT m.away_goals m.home_goals then WIN_POINTS
     else if oEQ m.away_goals m.home_goals then DRAW_POINTS
     else 0)

/-- Points earned by Real Madrid in one match, derived from the
preprocessed `real_result` column as the focal branch counts it. -/
def points_rm_row (m : MatchRow) : ℚ :=
  if oEQc m.real_result 1 then WIN_POINTS
  else if oEQc m.real_result (1/2) then DRAW_POINTS
  else 0

/-- A win of team 2 at home on 2020-10-01 (inside the current season
relative to the as-of date 2021-04-01). -/
def w4a : MatchRow :=
  { row0 with
    match_date := 20201001
    home_team_id := 2
    away_team_id := 3
    home_goals := some 2
    away_goals := some 0 }

/-- A draw of team 2 away on 2019-10-01 (inside the previous season). -/
def w4b : MatchRow :=
  { row0 with
    match_date := 20191001
    home_team_id := 3
    away_team_id := 2
    home_goals := some 1
    away_goals := some 1 }

/-- The five Real-Madrid rolling-form averages computed over exactly the
matches of `L` (divided by `L.length`, never by the requested window
size). -/
def rm_means_over (L : List MatchRow) : RMStats :=
  let k : ℚ := (L.length : ℚ)
  let g := qsum (L.map (·.goals))
  let c :=
    qsum ((L.filter (fun m => m.home_team_id == 1)).map (·.away_goals)) +
    qsum ((L.filter (fun m => m.away_team_id == 1)).map (·.home_goals))
  let pts : ℚ :=
    ((L.countP (fun m => oEQc m.real_result 1) : ℚ)) * WIN_POINTS +
    ((L.countP (fun m => oEQc m.real_result (1/2)) : ℚ)) * DRAW_POINTS
  let op :=
    qsum ((L.filter (fun m => m.home_team_id == 1)).map (·.PPM_A)) +
    qsum ((L.filter (fun m => m.away_team_id == 1)).map (·.PPM_H))
  ⟨g / k, c / k, (g - c) / k, pts / k, op / k⟩

/-- The five opponent rolling-form averages computed over exactly the
matches of `L`. -/
def opp_means_over (team_id : ℤ) (L : List MatchRow) : OppStats :=
  let k : ℚ := (L.length : ℚ)
  let g :=
    qsum ((L.filter (fun m => m.home_team_id == team_id)).map
      (·.home_goals)) +
    qsum ((L.filter (fun m => m.away_team_id == team_id)).map
      (·.away_goals))
  let c :=
    qsum ((L.filter (fun m => m.home_team_id == team_id)).map
      (·.away_goals)) +
    qsum ((L.filter (fun m => m.away_team_id == team_id)).map
      (·.home_goals))
  let pts : ℚ :=
    ((L.countP (fun m =>
        m.home_team_id == team_id && oGT m.home_goals m.away_goals) +
      L.countP (fun m =>
        m.away_team_id == team_id && oGT m.away_goals m.home_goals)
      : ℕ) : ℚ) * WIN_POINTS +
    ((L.countP (fun m => oEQ m.home_goals m.away_goals) : ℕ) : ℚ) *
      DRAW_POINTS
  let op :=
    qsum ((L.filter (fun m => m.home_team_id == team_id)).map (·.PPM_A)) +
    qsum ((L.filter (fun m => m.away_team_id == team_id)).map (·.PPM_H))
  ⟨g / k, c / k, (g - c) / k, pts / k, op / k⟩

/-- A fully populated Real-Madrid row (passes the NaN check). -/
def w8 : MatchRow :=
  { match_date := 20210101
    home_team_id := 1
    away_team_id := 2
    home_goals := some 2
    away_goals := some 1
    goals := some 2
    real_result := some 1
    PPM_H := some 2
    PPM_A := some 1
    home_points := some 3
    away_points := some 0
    RM_coach_rating_EDI := some 7
    RM_team_rating_EDI := some 7
    rival_rating_EDI := some 6 }

/-- A fully populated row of team 2 (passes the NaN check). -/
def w8b : MatchRow :=
  { w8 with
    home_team_id := 2
    away_team_id := 3 }

/-! ## Theorems -/

example : get_season 20210401 = some season_20_21 := by decide

example : get_season 19000101 = none := by decide

example : get_previous_season (some season_20_21) = .prev season_19_20 := by
  decide

example : get_previous_season (some season_19_20) = .firstSeason := by decide

/-- C9: on the three concrete meetings of the spec's example scenario
(Real Madrid id 1 vs team 2: a 3-0 win on 2021-01-01, a 1-1 draw on
2021-06-01, a 1-2 loss on 2022-01-01), `calculate_h2h_stats` with
`last_n = 5` as of 2022-02-01 returns win ratio 1/3, points per match 4/3
and goal balance +2. -/
theorem C9_h2h_example :
    calculate_h2h_stats [h2h_m1, h2h_m2, h2h_m3] 2 20220201 5 =
      some ⟨1/3, 4/3, 2⟩ := by
  decide

/-- C6 (code bug): for a non-focal team that has matches in the table and
an as-of date outside every known season, the season lookup yields `None`
and `calculate_team_points_per_match_season` reaches
`previous_season["start_date"]`, raising a `TypeError` instead of
returning an absence marker; the guard that would catch this exists only
in the focal-team branch. -/
theorem C6_season_lookup_bug :
    get_season 19000101 = none ∧
    get_previous_season (get_season 19000101) = .noSeason ∧
    calculate_team_points_per_match_season [] [cex_outside_seasons] 2
      19000101 =
      .error "TypeError: NoneType object is not subscriptable" := by
  refine ⟨by decide, by decide, by decide⟩

/-- C10 (code bug): when `_calculate_opponent_last_5` returns `np.nan`
(here: a team with zero matches), every public wrapper evaluates
`if result:` on a truthy float and subscripts it, raising `TypeError`
instead of returning `np.nan`. -/
theorem C10_wrapper_truthiness_bug :
    calculate_opponent_last_5 [] 20220101 7 5 = .nanR ∧
    calculate_OP_G_SCO_L5 [] 20220101 7 =
      .error "TypeError: float object is not subscriptable" ∧
    calculate_OP_G_CON_L5 [] 20220101 7 =
      .error "TypeError: float object is not subscriptable" ∧
    calculate_OP_GDIF_L5 [] 20220101 7 =
      .error "TypeError: float object is not subscriptable" ∧
    calculate_OP_PPM_L5 [] 20220101 7 =
      .error "TypeError: float object is not subscriptable" ∧
    calculate_OP_OPP_POS_L5 [] 20220101 7 =
      .error "TypeError: float object is not subscriptable" := by
  refine ⟨by decide, by decide, by decide, by decide, by decide, by decide⟩

/-- C1 (counterexample): two all-matches tables that agree on every match
dated before 2022-01-01 (both have none), yet
`calculate_team_points_per_match_season` for team 2 as of 2022-01-01
returns `np.nan` on one and `None` on the other, because the
`get_all_opp_matches` emptiness check inspects the whole table, including
a match dated 2025-01-01. -/
theorem C1_counterexample :
    List.filter (fun m => decide (m.match_date < 20220101)) [cex_future] =
      List.filter (fun m => decide (m.match_date < 20220101)) [] ∧
    20220101 ≤ cex_future.match_date ∧
    calculate_team_points_per_match_season [] [cex_future] 2 20220101 =
      .ok .nanV ∧
    calculate_team_points_per_match_season [] [] 2 20220101 = .ok .noneV ∧
    (Except.ok FVal.nanV : Except String FVal) ≠ .ok .noneV := by
  refine ⟨by decide, by decide, by decide, by decide, by decide⟩

/-- C2 (counterexample): a window match of team 2 whose opponent has PPM
exactly 1.9 is not counted in the TOP tier (the code tests `> 1.9`, the
claim says `>= 1.9`); and a Real-Madrid home match whose opponent has PPM
1.0 is counted in the TOP tier because Real Madrid's own PPM column is 2.5
(the focal branch tests both PPM columns). -/
theorem C2_counterexample :
    cex_top_boundary.home_team_id = 2 ∧
    oGEc cex_top_boundary.PPM_A TOP_TIER_MIN_PPM = true ∧
    calculate_team_goals_against_top [] [cex_top_boundary] 2 20210401 =
      .ok .nanV ∧
    cex_rm_own_ppm.home_team_id = REAL_MADRID_ID ∧
    oGEc cex_rm_own_ppm.PPM_A TOP_TIER_MIN_PPM = false ∧
    calculate_team_goals_against_top [cex_rm_own_ppm] [] 1 20210401 =
      .ok (.num 2) ∧
    FVal.num 2 ≠ FVal.nanV := by
  refine ⟨by decide, by decide, by decide, by decide, by decide, by decide,
    by decide⟩

/-- C3 (counterexample): a single window match of team 2 whose opponent
has PPM exactly 1.2 is counted by both the MID tier (`1.2 <= ppm <= 1.9`)
and the LOW tier (`0 <= ppm <= 1.2`), so TOP + MID + LOW counts sum to 2
over a window of total size 1. -/
theorem C3_counterexample :
    get_all_opp_matches [cex_tier_overlap] 2 = some [cex_tier_overlap] ∧
    get_previous_season (get_season 20210401) = .prev season_19_20 ∧
    List.filter (fun m =>
        decide (m.match_date < 20210401) &&
        decide (season_19_20.start_date ≤ m.match_date))
      [cex_tier_overlap] = [cex_tier_overlap] ∧
    (tier_filter_opp 2 TOP_TIER_MIN_PPM none [cex_tier_overlap]).length
      = 0 ∧
    (tier_filter_opp 2 MID_TIER_MIN_PPM (some MID_TIER_MAX_PPM)
      [cex_tier_overlap]).length = 1 ∧
    (tier_filter_opp 2 0 (some LOW_TIER_MAX_PPM)
      [cex_tier_overlap]).length = 1 ∧
    calculate_team_points_against_mid [] [cex_tier_overlap] 2 20210401 =
      .ok (.num 1) ∧
    calculate_team_points_against_low [] [cex_tier_overlap] 2 20210401 =
      .ok (.num 1) ∧
    0 + 1 + 1 ≠ 1 := by
  refine ⟨by decide, by decide, by decide, by decide, by decide, by decide,
    by decide, by decide, by decide⟩

/-- C4 (counterexample): a Real-Madrid win dated 2020-10-01 lies outside
the previous season relative to the as-of date 2021-04-01 (season
2019-2020 ends 2020-07-19), yet `calculate_team_points_per_match_season`
returns 3 points per match computed from exactly that match, instead of
the `np.nan` an empty previous-season window would give. -/
theorem C4_counterexample :
    get_season 20210401 = some season_20_21 ∧
    get_previous_season (some season_20_21) = .prev season_19_20 ∧
    season_19_20.end_date < cex_current_season.match_date ∧
    calculate_team_points_per_match_season [cex_current_season] [] 1
      20210401 = .ok (.num 3) ∧
    FVal.num 3 ≠ FVal.nanV := by
  refine ⟨by decide, by decide, by decide, by decide, by decide⟩

/-- C5 (counterexample): for a team id with no matches in the all-matches
table (team 99) and a date inside the earliest known season,
`calculate_team_points_per_match_season` returns `None` (the
`get_all_opp_matches` early exit fires before the first-season check),
not the claimed 0. -/
theorem C5_counterexample :
    get_season 20190901 = some season_19_20 ∧
    get_previous_season (get_season 20190901) = .firstSeason ∧
    calculate_team_points_per_match_season [] [] 99 20190901 =
      .ok .noneV ∧
    FVal.noneV ≠ FVal.num 0 := by
  refine ⟨by decide, by decide, by decide, by decide⟩

/-- `find_season_index` over the concrete season list, as a case split on
the queried name. -/
theorem find_season_index_seasons (name : String) :
    find_season_index seasons name =
      (if "2019-2020" = name then some 0
       else if "2020-2021" = name then some 1
       else if "2021-2022" = name then some 2
       else if "2022-2023" = name then some 3
       else if "2023-2024" = name then some 4
       else if "2024-2025" = name then some 5
       else none) := by
  simp only [seasons, find_season_index, season_19_20, season_20_21,
    season_21_22, season_22_23, season_23_24, season_24_25]
  split_ifs <;> simp_all

/-- C7: `get_previous_season` returns the `True` sentinel exactly on the
earliest known season, `None` exactly on an absent argument or an unknown
season name, and for every other known season the season immediately
preceding it in the ordered season list. -/
theorem C7_previous_season_spec :
    get_previous_season none = .noSeason ∧
    ∀ s : Season,
      get_previous_season (some s) =
        (if s.name = "2019-2020" then PrevSeason.firstSeason
         else if s.name = "2020-2021" then .prev season_19_20
         else if s.name = "2021-2022" then .prev season_20_21
         else if s.name = "2022-2023" then .prev season_21_22
         else if s.name = "2023-2024" then .prev season_22_23
         else if s.name = "2024-2025" then .prev season_23_24
         else .noSeason) := by
  refine ⟨rfl, fun s => ?_⟩
  simp only [get_previous_season, find_season_index_seasons]
  by_cases h1 : s.name = "2019-2020"
  · simp [h1]
  by_cases h2 : s.name = "2020-2021"
  · simp [h2, seasons, season_19_20]
  by_cases h3 : s.name = "2021-2022"
  · simp [h3, seasons, season_20_21]
  by_cases h4 : s.name = "2022-2023"
  · simp [h4, seasons, season_21_22]
  by_cases h5 : s.name = "2023-2024"
  · simp [h5, seasons, season_22_23]
  by_cases h6 : s.name = "2024-2025"
  · simp [h6, seasons, season_23_24]
  simp [h1, h2, h3, h4, h5, h6, Ne.symm h1, Ne.symm h2, Ne.symm h3,
    Ne.symm h4, Ne.symm h5, Ne.symm h6]

/-! ## Infrastructure lemmas -/

/-- If two tables agree on the rows dated before `D`, they agree on every
filter whose predicate only selects rows dated before `D`. -/
theorem filter_lt_restrict {l1 l2 : List MatchRow} {D : ℕ}
    (h : l1.filter (fun m => decide (m.match_date < D)) =
      l2.filter (fun m => decide (m.match_date < D)))
    (p : MatchRow → Bool) (hp : ∀ m, p m = true → m.match_date < D) :
    l1.filter p = l2.filter p := by
  have key : ∀ l : List MatchRow,
      l.filter p =
        (l.filter (fun m => decide (m.match_date < D))).filter p := by
    intro l
    rw [List.filter_filter]
    apply List.filter_congr
    intro m _
    cases hpm : p m with
    | true => simp [hp m hpm]
    | false => simp
  rw [key l1, key l2, h]

theorem insertDescByDate_perm (m : MatchRow) (l : List MatchRow) :
    List.Perm (insertDescByDate m l) (m :: l) := by
  induction l with
  | nil => exact List.Perm.refl _
  | cons x xs ih =>
    unfold insertDescByDate
    by_cases h : x.match_date ≤ m.match_date
    · rw [if_pos h]
    · rw [if_neg h]
      exact (ih.cons x).trans (List.Perm.swap m x xs)

/-- The descending sort is a permutation of its input, so every aggregate
used by the calculators (sums, counts, lengths) is unchanged by it. -/
theorem sortDescByDate_perm (l : List MatchRow) :
    List.Perm (sortDescByDate l) l := by
  induction l with
  | nil => exact List.Perm.refl _
  | cons x xs ih =>
    exact (insertDescByDate_perm x (sortDescByDate xs)).trans (ih.cons x)

theorem qsum_eq_sum (l : List (Option ℚ)) :
    qsum l = (l.map (fun o => o.getD 0)).sum := by
  induction l with
  | nil => rfl
  | cons a l ih =>
    simp only [qsum, List.foldr_cons, List.map_cons, List.sum_cons] at *
    rw [ih]

theorem qsum_map_perm (f : MatchRow → Option ℚ) {l1 l2 : List MatchRow}
    (h : List.Perm l1 l2) : qsum (l1.map f) = qsum (l2.map f) := by
  rw [qsum_eq_sum, qsum_eq_sum, List.map_map, List.map_map]
  exact (h.map _).sum_eq

theorem check_NaN_eq_of_perm {l1 l2 : List MatchRow} (h : List.Perm l1 l2) :
    check_NaN_column_in_RM_matches l1 = check_NaN_column_in_RM_matches l2
    := by
  unfold check_NaN_column_in_RM_matches
  induction h with
  | nil => rfl
  | cons x _ ih => simp [List.all_cons, ih]
  | swap x y l => simp [List.all_cons, Bool.and_left_comm]
  | trans _ _ ih1 ih2 => exact ih1.trans ih2

theorem oEQc_eq_some {a : Option ℚ} {c : ℚ} :
    oEQc a c = true ↔ a = some c := by
  cases a <;> simp [oEQc]

theorem oGT_oEQ_false {a b : Option ℚ} (h : oGT a b = true) :
    oEQ a b = false := by
  cases a with
  | none => rfl
  | some x =>
    cases b with
    | none => rfl
    | some y =>
      simp only [oGT, decide_eq_true_eq] at h
      simp only [oEQ, decide_eq_false_iff_not]
      exact ne_of_gt h

theorem tier_filter_opp_none_eq (team_id : ℤ) (min_ppm : ℚ)
    (fm : List MatchRow)
    (hside : ∀ m ∈ fm, m.home_team_id = team_id ∨ m.away_team_id = team_id)
    (hne : ∀ m ∈ fm, m.home_team_id ≠ m.away_team_id) :
    tier_filter_opp team_id min_ppm none fm =
      fm.filter (fun m => oGTc (opp_ppm_of team_id m) min_ppm) := by
  unfold tier_filter_opp
  apply List.filter_congr
  intro m hm
  rcases hside m hm with h | h
  · have haway : m.away_team_id ≠ team_id := by
      have hx := hne m hm
      rw [h] at hx
      exact Ne.symm hx
    simp [opp_ppm_of, h, haway]
  · by_cases hh : m.home_team_id = team_id
    · exact absurd (hh.trans h.symm) (hne m hm)
    · simp [opp_ppm_of, h, hh]

theorem tier_filter_opp_some_eq (team_id : ℤ) (min_ppm mx : ℚ)
    (fm : List MatchRow)
    (hside : ∀ m ∈ fm, m.home_team_id = team_id ∨ m.away_team_id = team_id)
    (hne : ∀ m ∈ fm, m.home_team_id ≠ m.away_team_id) :
    tier_filter_opp team_id min_ppm (some mx) fm =
      fm.filter (fun m =>
        oGEc (opp_ppm_of team_id m) min_ppm &&
        oLEc (opp_ppm_of team_id m) mx) := by
  unfold tier_filter_opp
  apply List.filter_congr
  intro m hm
  rcases hside m hm with h | h
  · have haway : m.away_team_id ≠ team_id := by
      have hx := hne m hm
      rw [h] at hx
      exact Ne.symm hx
    simp [opp_ppm_of, h, haway, Bool.and_assoc]
  · by_cases hh : m.home_team_id = team_id
    · exact absurd (hh.trans h.symm) (hne m hm)
    · simp [opp_ppm_of, h, hh, Bool.and_assoc]

/-- C2 (amended): for a non-focal queried team, tier membership is a
function of the opponent's PPM alone — the column of the side that is not
the queried team — with a strict lower bound when no upper bound is given
(so TOP is opponent PPM strictly greater than 1.9) and inclusive bounds
otherwise; for the focal team the test is applied to both PPM columns, so
the queried team's own PPM also triggers membership. -/
theorem C2_tier_membership (team_id : ℤ) (min_ppm mx : ℚ)
    (fm : List MatchRow)
    (hside : ∀ m ∈ fm, m.home_team_id = team_id ∨ m.away_team_id = team_id)
    (hne : ∀ m ∈ fm, m.home_team_id ≠ m.away_team_id) :
    tier_filter_opp team_id min_ppm none fm =
      fm.filter (fun m => oGTc (opp_ppm_of team_id m) min_ppm) ∧
    tier_filter_opp team_id min_ppm (some mx) fm =
      fm.filter (fun m =>
        oGEc (opp_ppm_of team_id m) min_ppm &&
        oLEc (opp_ppm_of team_id m) mx) ∧
    tier_filter_rm min_ppm none fm =
      fm.filter (fun m => oGTc m.PPM_H min_ppm || oGTc m.PPM_A min_ppm) :=
  ⟨tier_filter_opp_none_eq team_id min_ppm fm hside hne,
   tier_filter_opp_some_eq team_id min_ppm mx fm hside hne, rfl⟩

theorem C2_witness :
    tier_filter_opp 2 TOP_TIER_MIN_PPM none [cex_top_boundary] =
      List.filter (fun m => oGTc (opp_ppm_of 2 m) TOP_TIER_MIN_PPM)
        [cex_top_boundary] ∧
    tier_filter_opp 2 MID_TIER_MIN_PPM (some MID_TIER_MAX_PPM)
      [cex_top_boundary] =
      List.filter (fun m =>
        oGEc (opp_ppm_of 2 m) MID_TIER_MIN_PPM &&
        oLEc (opp_ppm_of 2 m) MID_TIER_MAX_PPM) [cex_top_boundary] := by
  constructor
  · exact (C2_tier_membership 2 TOP_TIER_MIN_PPM 0 [cex_top_boundary]
      (by decide) (by decide)).1
  · exact (C2_tier_membership 2 MID_TIER_MIN_PPM MID_TIER_MAX_PPM
      [cex_top_boundary] (by decide) (by decide)).2.1

/-- C3 (amended): for a non-focal team whose window matches all carry a
non-negative opponent PPM, the TOP, MID and LOW tier counts sum to the
window total plus the number of matches whose opponent PPM is exactly 1.2:
the MID range `[1.2, 1.9]` and the LOW range `[0, 1.2]` both contain 1.2,
and every other non-negative PPM lies in exactly one tier. -/
theorem C3_tier_partition_overlap (team_id : ℤ) (fm : List MatchRow)
    (hside : ∀ m ∈ fm, m.home_team_id = team_id ∨ m.away_team_id = team_id)
    (hne : ∀ m ∈ fm, m.home_team_id ≠ m.away_team_id)
    (hppm : ∀ m ∈ fm, ∃ q, opp_ppm_of team_id m = some q ∧ 0 ≤ q) :
    (tier_filter_opp team_id TOP_TIER_MIN_PPM none fm).length +
    (tier_filter_opp team_id MID_TIER_MIN_PPM (some MID_TIER_MAX_PPM)
      fm).length +
    (tier_filter_opp team_id 0 (some LOW_TIER_MAX_PPM) fm).length =
    fm.length + fm.countP (fun m =>
      decide (opp_ppm_of team_id m = some MID_TIER_MIN_PPM)) := by
  rw [tier_filter_opp_none_eq team_id TOP_TIER_MIN_PPM fm hside hne,
    tier_filter_opp_some_eq team_id MID_TIER_MIN_PPM MID_TIER_MAX_PPM fm
      hside hne,
    tier_filter_opp_some_eq team_id 0 LOW_TIER_MAX_PPM fm hside hne,
    ← List.countP_eq_length_filter, ← List.countP_eq_length_filter,
    ← List.countP_eq_length_filter]
  simp only [oGTc, oGEc, oLEc]
  have e1 : MID_TIER_MIN_PPM = LOW_TIER_MAX_PPM := rfl
  have e2 : MID_TIER_MAX_PPM = TOP_TIER_MIN_PPM := rfl
  have e3 : LOW_TIER_MAX_PPM < TOP_TIER_MIN_PPM := by
    norm_num [LOW_TIER_MAX_PPM, TOP_TIER_MIN_PPM]
  clear hside hne
  induction fm with
  | nil => simp
  | cons m t ih =>
    have ht := ih (fun x hx => hppm x (List.mem_cons_of_mem m hx))
    obtain ⟨q, hq, hq0⟩ := hppm m (List.mem_cons_self m t)
    simp only [List.countP_cons, List.length_cons, hq, Option.some.injEq]
    by_cases h1 : TOP_TIER_MIN_PPM < q
    · have f1 : ¬(q ≤ MID_TIER_MAX_PPM) := by rw [e2]; exact not_le.mpr h1
      have f2 : ¬(q ≤ LOW_TIER_MAX_PPM) := fun hc =>
        absurd h1 (not_lt.mpr (hc.trans e3.le))
      have f3 : ¬(q = MID_TIER_MIN_PPM) := fun hc =>
        f2 (le_of_eq (hc.trans e1))
      simp only [h1, f1, f2, f3, hq0, decide_True, decide_False,
        Bool.true_and, Bool.false_and, Bool.and_false, Bool.and_true,
        Bool.false_eq_true, if_true, if_false]
      omega
    · by_cases h5 : q < MID_TIER_MIN_PPM
      · have f4 : ¬(MID_TIER_MIN_PPM ≤ q) := not_le.mpr h5
        have f5 : q ≤ LOW_TIER_MAX_PPM := by rw [← e1]; exact le_of_lt h5
        have f6 : ¬(q = MID_TIER_MIN_PPM) := ne_of_lt h5
        simp only [h1, f4, f5, f6, hq0, decide_True, decide_False,
          Bool.true_and, Bool.false_and, Bool.and_false, Bool.and_true,
          Bool.false_eq_true, if_true, if_false]
        omega
      · have f7 : MID_TIER_MIN_PPM ≤ q := not_lt.mp h5
        have f8 : q ≤ MID_TIER_MAX_PPM := by rw [e2]; exact not_lt.mp h1
        by_cases h11 : q = MID_TIER_MIN_PPM
        · have f9 : q ≤ LOW_TIER_MAX_PPM := le_of_eq (h11.trans e1)
          have f10 : (q = MID_TIER_MIN_PPM) = True := eq_true h11
          simp only [h1, f7, f8, f9, f10, hq0, decide_True, decide_False,
            Bool.true_and, Bool.false_and, Bool.and_false, Bool.and_true,
            Bool.false_eq_true, if_true, if_false]
          omega
        · have f11 : ¬(q ≤ LOW_TIER_MAX_PPM) := fun hc => by
            rw [← e1] at hc
            exact h11 (le_antisymm hc f7)
          simp only [h1, f7, f8, h11, f11, hq0, decide_True, decide_False,
            Bool.true_and, Bool.false_and, Bool.and_false, Bool.and_true,
            Bool.false_eq_true, if_true, if_false]
          omega

theorem C3_witness :
    (tier_filter_opp 2 TOP_TIER_MIN_PPM none [cex_tier_overlap]).length +
    (tier_filter_opp 2 MID_TIER_MIN_PPM (some MID_TIER_MAX_PPM)
      [cex_tier_overlap]).length +
    (tier_filter_opp 2 0 (some LOW_TIER_MAX_PPM)
      [cex_tier_overlap]).length =
    List.length [cex_tier_overlap] + List.countP (fun m =>
      decide (opp_ppm_of 2 m = some MID_TIER_MIN_PPM))
      [cex_tier_overlap] :=
  C3_tier_partition_overlap 2 [cex_tier_overlap] (by decide) (by decide)
    (fun m hm => by
      cases hm with
      | head => exact ⟨12/10, by decide, by norm_num⟩
      | tail _ h => cases h)

theorem countP_mul_sum (w : List MatchRow) (p : MatchRow → Bool) (c : ℚ) :
    ((w.countP p : ℕ) : ℚ) * c =
      (w.map (fun m => if p m = true then c else 0)).sum := by
  induction w with
  | nil => simp
  | cons m t ih =>
    simp only [List.countP_cons, List.map_cons, List.sum_cons]
    by_cases h : p m = true
    · simp only [h, if_true]
      push_cast
      linear_combination ih
    · simp [h, ih]

theorem sum_map_add (f g : MatchRow → ℚ) (w : List MatchRow) :
    (w.map (fun m => f m + g m)).sum = (w.map f).sum + (w.map g).sum := by
  induction w with
  | nil => simp
  | cons m t ih => simp [ih]; ring

theorem season_ppm_rm_points_eq_sum (w : List MatchRow) :
    season_ppm_rm_points w = (w.map points_rm_row).sum := by
  have hrow : ∀ m : MatchRow,
      (if oEQc m.real_result 1 = true then WIN_POINTS else 0) +
      (if oEQc m.real_result (1/2) = true then DRAW_POINTS else 0) =
      points_rm_row m := by
    intro m
    unfold points_rm_row
    by_cases h1 : oEQc m.real_result 1 = true
    · have h2 : oEQc m.real_result (1/2) = false := by
        cases hx : oEQc m.real_result (1/2) with
        | false => rfl
        | true =>
          exfalso
          rw [oEQc_eq_some] at h1 hx
          rw [h1] at hx
          have h3 := Option.some.inj hx
          norm_num at h3
      rw [if_pos h1, if_neg (by simp only [h2]; decide), if_pos h1, add_zero]
    · rw [if_neg h1, if_neg h1, zero_add]
  unfold season_ppm_rm_points
  rw [countP_mul_sum, countP_mul_sum, ← sum_map_add]
  exact congrArg List.sum (List.map_congr_left (fun m _ => hrow m))

theorem season_ppm_points_opp_eq_sum (team_id : ℤ) (w : List MatchRow)
    (hside : ∀ m ∈ w, m.home_team_id = team_id ∨ m.away_team_id = team_id)
    (hne : ∀ m ∈ w, m.home_team_id ≠ m.away_team_id) :
    season_ppm_points_opp team_id w =
      (w.map (points_for_team team_id)).sum := by
  simp only [season_ppm_points_opp]
  rw [List.filter_filter, List.filter_filter, List.filter_filter,
    List.filter_filter, ← List.countP_eq_length_filter,
    ← List.countP_eq_length_filter, ← List.countP_eq_length_filter,
    ← List.countP_eq_length_filter]
  push_cast
  rw [add_mul, add_mul, countP_mul_sum, countP_mul_sum, countP_mul_sum,
    countP_mul_sum, ← sum_map_add, ← sum_map_add, ← sum_map_add]
  apply congrArg List.sum
  apply List.map_congr_left
  intro m hm
  rcases hside m hm with h | h
  · have haway : (m.away_team_id == team_id) = false := by
      have hx := hne m hm
      rw [h] at hx
      simp [Ne.symm hx]
    have hhome : (m.home_team_id == team_id) = true := by simp [h]
    simp only [hhome, haway, Bool.and_true, Bool.and_false,
      Bool.false_eq_true, if_false, points_for_team, if_true, add_zero]
    by_cases hw : oGT m.home_goals m.away_goals = true
    · simp [hw, oGT_oEQ_false hw]
    · simp [hw]
  · by_cases hh : m.home_team_id = team_id
    · exact absurd (hh.trans h.symm) (hne m hm)
    · have hhome : (m.home_team_id == team_id) = false := by simp [hh]
      have haway : (m.away_team_id == team_id) = true := by simp [h]
      simp only [hhome, haway, Bool.and_true, Bool.and_false,
        Bool.false_eq_true, if_false, points_for_team, if_true, zero_add]
      by_cases hw : oGT m.away_goals m.home_goals = true
      · simp [hw, oGT_oEQ_false hw]
      · simp [hw]

/-- C4 (amended): in both branches, `calculate_team_points_per_match_season`
averages per-match points over exactly the matches dated in
`[previous_season.start_date, as_of_date)` — a window with no upper bound
at the previous season's end, so current-season matches played before the
as-of date contribute as well; it returns `np.nan` exactly when that
window is empty. -/
theorem C4_season_window :
    (∀ (rm all_matches : List MatchRow) (d : ℕ) (ps : Season),
      get_previous_season (get_season d) = .prev ps →
      ∀ w, w = rm.filter (fun m =>
        decide (ps.start_date ≤ m.match_date) &&
        decide (m.match_date < d)) →
      calculate_team_points_per_match_season rm all_matches 1 d =
        .ok (if w.isEmpty then FVal.nanV
          else .num ((w.map points_rm_row).sum / (w.length : ℚ)))) ∧
    (∀ (rm all_matches : List MatchRow) (team_id : ℤ) (d : ℕ)
      (tm : List MatchRow) (ps : Season),
      team_id ≠ 1 →
      get_all_opp_matches all_matches team_id = some tm →
      get_previous_season (get_season d) = .prev ps →
      (∀ m ∈ all_matches, m.home_team_id ≠ m.away_team_id) →
      ∀ w, w = tm.filter (fun m =>
        decide (ps.start_date ≤ m.match_date) &&
        decide (m.match_date < d)) →
      calculate_team_points_per_match_season rm all_matches team_id d =
        .ok (if w.isEmpty then FVal.nanV
          else .num ((w.map (points_for_team team_id)).sum /
            (w.length : ℚ)))) := by
  constructor
  · intro rm all_matches d ps hprev w hw
    simp only [calculate_team_points_per_match_season, hprev,
      if_neg (fun h => h rfl : ¬((1:ℤ) ≠ 1))]
    subst hw
    simp only [season_ppm_rm_core, season_ppm_rm_points_eq_sum]
  · intro rm all_matches team_id d tm ps ht1 hopp hprev hwf w hw
    have htm : tm = all_matches.filter (fun m =>
        m.home_team_id == team_id || m.away_team_id == team_id) := by
      simp only [get_all_opp_matches] at hopp
      split at hopp
      · cases hopp
      · exact (Option.some.inj hopp).symm
    have hmem : ∀ m ∈ w, m ∈ all_matches := by
      intro m hm
      rw [hw] at hm
      have h1 := (List.mem_filter.mp hm).1
      rw [htm] at h1
      exact (List.mem_filter.mp h1).1
    have hside : ∀ m ∈ w,
        m.home_team_id = team_id ∨ m.away_team_id = team_id := by
      intro m hm
      rw [hw] at hm
      have h1 := (List.mem_filter.mp hm).1
      rw [htm] at h1
      have h2 := (List.mem_filter.mp h1).2
      simpa using h2
    have hne : ∀ m ∈ w, m.home_team_id ≠ m.away_team_id :=
      fun m hm => hwf m (hmem m hm)
    simp only [calculate_team_points_per_match_season, hprev, hopp,
      if_pos ht1]
    subst hw
    simp only [season_ppm_opp_core,
      season_ppm_points_opp_eq_sum team_id _ hside hne]

theorem C4_witness :
    calculate_team_points_per_match_season [cex_current_season] [] 1
      20210401 = .ok (.num 3) ∧
    calculate_team_points_per_match_season [] [w4a, w4b] 2 20210401 =
      .ok (.num 2) := by
  constructor
  · have h := C4_season_window.1 [cex_current_season] [] 20210401
      season_19_20 (by decide) _ rfl
    rw [h]; decide
  · have h := C4_season_window.2 [] [w4a, w4b] 2 20210401 [w4a, w4b]
      season_19_20 (by decide) (by decide) (by decide) (by decide) _ rfl
    rw [h]; decide

/-- C5 (amended): for any date in the earliest known season, the focal
branch returns exactly 0 unconditionally; the non-focal branch returns
exactly 0 provided the team has at least one match in the all-matches
table, and otherwise returns the `None` absence marker via the
`get_all_opp_matches` early exit. -/
theorem C5_first_season_zero_fill (rm all_matches : List MatchRow)
    (team_id : ℤ) (d : ℕ) (hd : get_season d = some season_19_20) :
    calculate_team_points_per_match_season rm all_matches 1 d =
      .ok (.num 0) ∧
    (team_id ≠ 1 → get_all_opp_matches all_matches team_id ≠ none →
      calculate_team_points_per_match_season rm all_matches team_id d =
        .ok (.num 0)) := by
  have hprev : get_previous_season (get_season d) = .firstSeason := by
    rw [hd]; decide
  constructor
  · simp only [calculate_team_points_per_match_season, hprev,
      if_neg (fun h => h rfl : ¬((1:ℤ) ≠ 1))]
  · intro ht1 hopp
    simp only [calculate_team_points_per_match_season, hprev,
      if_pos ht1]
    cases hg : get_all_opp_matches all_matches team_id with
    | none => exact absurd hg hopp
    | some tm => rfl

theorem C5_witness :
    calculate_team_points_per_match_season [] [] 1 20190901 =
      .ok (.num 0) ∧
    calculate_team_points_per_match_season [] [cex_outside_seasons] 2
      20190901 = .ok (.num 0) := by
  constructor
  · exact (C5_first_season_zero_fill [] [] 1 20190901 (by decide)).1
  · exact (C5_first_season_zero_fill [] [cex_outside_seasons] 2 20190901
      (by decide)).2 (by decide) (by decide)

theorem rm_last_5_core_full (L : List MatchRow) (n : ℕ)
    (h1 : 1 ≤ L.length) (h2 : L.length < n)
    (hchk : check_NaN_column_in_RM_matches L = true) :
    rm_last_5_core L n = .stats (rm_means_over L) := by
  have hperm := sortDescByDate_perm L
  have hlen : (sortDescByDate L).length = L.length := hperm.length_eq
  have htake : (sortDescByDate L).take n = sortDescByDate L :=
    List.take_of_length_le (by omega)
  have hemp : (sortDescByDate L).isEmpty = false := by
    cases hS : sortDescByDate L with
    | nil => rw [hS] at hlen; simp at hlen; omega
    | cons a t => rfl
  have hchk' : check_NaN_column_in_RM_matches (sortDescByDate L) = true :=
    (check_NaN_eq_of_perm hperm).trans hchk
  simp only [rm_last_5_core, htake, hemp, hchk', Bool.not_true,
    Bool.false_eq_true, if_false]
  rw [qsum_map_perm _ hperm,
    qsum_map_perm _ (hperm.filter (fun m => m.home_team_id == 1)),
    qsum_map_perm _ (hperm.filter (fun m => m.away_team_id == 1)),
    qsum_map_perm (·.PPM_A) (hperm.filter (fun m => m.home_team_id == 1)),
    qsum_map_perm (·.PPM_H) (hperm.filter (fun m => m.away_team_id == 1)),
    hperm.countP_eq (fun m => oEQc m.real_result 1),
    hperm.countP_eq (fun m => oEQc m.real_result (1/2)), hlen]
  rfl

theorem opp_last_5_core_full (L : List MatchRow) (team_id : ℤ) (n : ℕ)
    (h1 : 1 ≤ L.length) (h2 : L.length < n)
    (hchk : check_NaN_column_in_RM_matches L = true) :
    opp_last_5_core L team_id n = .stats (opp_means_over team_id L) := by
  have hperm := sortDescByDate_perm L
  have hlen : (sortDescByDate L).length = L.length := hperm.length_eq
  have htake : (sortDescByDate L).take n = sortDescByDate L :=
    List.take_of_length_le (by omega)
  have hemp : (sortDescByDate L).isEmpty = false := by
    cases hS : sortDescByDate L with
    | nil => rw [hS] at hlen; simp at hlen; omega
    | cons a t => rfl
  have hchk' : check_NaN_column_in_RM_matches (sortDescByDate L) = true :=
    (check_NaN_eq_of_perm hperm).trans hchk
  simp only [opp_last_5_core, htake, hemp, hchk', Bool.not_true,
    Bool.false_eq_true, if_false]
  rw [qsum_map_perm (·.home_goals)
      (hperm.filter (fun m => m.home_team_id == team_id)),
    qsum_map_perm (·.away_goals)
      (hperm.filter (fun m => m.away_team_id == team_id)),
    qsum_map_perm (·.away_goals)
      (hperm.filter (fun m => m.home_team_id == team_id)),
    qsum_map_perm (·.home_goals)
      (hperm.filter (fun m => m.away_team_id == team_id)),
    qsum_map_perm (·.PPM_A)
      (hperm.filter (fun m => m.home_team_id == team_id)),
    qsum_map_perm (·.PPM_H)
      (hperm.filter (fun m => m.away_team_id == team_id)),
    hperm.countP_eq (fun m =>
      m.home_team_id == team_id && oGT m.home_goals m.away_goals),
    hperm.countP_eq (fun m =>
      m.away_team_id == team_id && oGT m.away_goals m.home_goals),
    hperm.countP_eq (fun m => oEQ m.home_goals m.away_goals), hlen]
  rfl

/-- C8: with zero matches strictly before the as-of date, the rolling-form
computation returns the branch's absence marker (`False` for the focal
team, `np.nan` for an opponent), never a dictionary of zeros; and with
`1 <= k < n` available matches that pass the NaN check, it returns the
averages over exactly those `k` matches, divided by `k`. -/
theorem C8_rolling_form_absence (rm opp_matches : List MatchRow) (d : ℕ)
    (team_id : ℤ) (n : ℕ) :
    (rm.filter (fun m => decide (m.match_date < d)) = [] →
      calculate_last_5_stats rm opp_matches d 1 n = .rmR .falseR) ∧
    (team_id ≠ 1 →
      opp_matches.filter (fun m =>
        decide (m.match_date < d) &&
        (m.home_team_id == team_id || m.away_team_id == team_id)) = [] →
      calculate_last_5_stats rm opp_matches d team_id n = .oppR .nanR) ∧
    (∀ L, L = rm.filter (fun m => decide (m.match_date < d)) →
      1 ≤ L.length → L.length < n →
      check_NaN_column_in_RM_matches L = true →
      calculate_last_5_stats rm opp_matches d 1 n =
        .rmR (.stats (rm_means_over L))) ∧
    (∀ L, team_id ≠ 1 →
      L = opp_matches.filter (fun m =>
        decide (m.match_date < d) &&
        (m.home_team_id == team_id || m.away_team_id == team_id)) →
      1 ≤ L.length → L.length < n →
      check_NaN_column_in_RM_matches L = true →
      calculate_last_5_stats rm opp_matches d team_id n =
        .oppR (.stats (opp_means_over team_id L))) := by
  refine ⟨?_, ?_, ?_, ?_⟩
  · intro h
    simp [calculate_last_5_stats, calculate_real_madrid_last_5, h,
      rm_last_5_core, sortDescByDate]
  · intro ht1 h
    simp [calculate_last_5_stats, calculate_opponent_last_5, ht1, h,
      opp_last_5_core, sortDescByDate]
  · intro L hL h1 h2 hchk
    subst hL
    simp only [calculate_last_5_stats, beq_self_eq_true, if_true,
      calculate_real_madrid_last_5]
    rw [rm_last_5_core_full _ n h1 h2 hchk]
  · intro L ht1 hL h1 h2 hchk
    subst hL
    have hb : (team_id == 1) = false := by simp [ht1]
    simp only [calculate_last_5_stats, hb, Bool.false_eq_true, if_false,
      calculate_opponent_last_5]
    rw [opp_last_5_core_full _ team_id n h1 h2 hchk]

theorem C8_witness :
    calculate_last_5_stats [] [] 20220101 1 5 = .rmR .falseR ∧
    calculate_last_5_stats [] [] 20220101 2 5 = .oppR .nanR ∧
    calculate_last_5_stats [w8] [] 20220101 1 5 =
      .rmR (.stats (rm_means_over [w8])) ∧
    calculate_last_5_stats [] [w8b] 20220101 2 5 =
      .oppR (.stats (opp_means_over 2 [w8b])) := by
  refine ⟨?_, ?_, ?_, ?_⟩
  · exact (C8_rolling_form_absence [] [] 20220101 1 5).1 (by decide)
  · exact (C8_rolling_form_absence [] [] 20220101 2 5).2.1 (by decide)
      (by decide)
  · exact (C8_rolling_form_absence [w8] [] 20220101 1 5).2.2.1 [w8]
      (by decide) (by decide) (by decide) (by decide)
  · exact (C8_rolling_form_absence [] [w8b] 20220101 2 5).2.2.2 [w8b]
      (by decide) (by decide) (by decide) (by decide) (by decide)

theorem l5_rm_invariant {rm1 rm2 : List MatchRow} {D d : ℕ} (hd : d ≤ D)
    (hrm : rm1.filter (fun m => decide (m.match_date < D)) =
      rm2.filter (fun m => decide (m.match_date < D))) (n : ℕ) :
    calculate_real_madrid_last_5 rm1 d n =
      calculate_real_madrid_last_5 rm2 d n := by
  unfold calculate_real_madrid_last_5
  rw [filter_lt_restrict hrm _
    (fun m hm => lt_of_lt_of_le (of_decide_eq_true hm) hd)]

theorem l5_opp_invariant {all1 all2 : List MatchRow} {D d : ℕ}
    (hd : d ≤ D)
    (hall : all1.filter (fun m => decide (m.match_date < D)) =
      all2.filter (fun m => decide (m.match_date < D)))
    (team_id : ℤ) (n : ℕ) :
    calculate_opponent_last_5 all1 d team_id n =
      calculate_opponent_last_5 all2 d team_id n := by
  unfold calculate_opponent_last_5
  rw [filter_lt_restrict hall _ (fun m hm =>
    lt_of_lt_of_le (of_decide_eq_true (Bool.and_eq_true_iff.mp hm).1) hd)]

theorem h2h_invariant {all1 all2 : List MatchRow} {D d : ℕ} (hd : d ≤ D)
    (hall : all1.filter (fun m => decide (m.match_date < D)) =
      all2.filter (fun m => decide (m.match_date < D)))
    (opp_id : ℤ) (last_n : Option ℕ) :
    get_h2h_matches all1 opp_id d last_n =
      get_h2h_matches all2 opp_id d last_n := by
  unfold get_h2h_matches
  rw [filter_lt_restrict hall _ (fun m hm =>
    lt_of_lt_of_le (of_decide_eq_true (Bool.and_eq_true_iff.mp hm).1) hd)]

theorem season_invariant {rm1 rm2 all1 all2 : List MatchRow} {D d : ℕ}
    (hd : d ≤ D)
    (hrm : rm1.filter (fun m => decide (m.match_date < D)) =
      rm2.filter (fun m => decide (m.match_date < D)))
    (hall : all1.filter (fun m => decide (m.match_date < D)) =
      all2.filter (fun m => decide (m.match_date < D)))
    (team_id : ℤ)
    (hemp : (all1.filter (fun m =>
        m.home_team_id == team_id || m.away_team_id == team_id)).isEmpty =
      (all2.filter (fun m =>
        m.home_team_id == team_id || m.away_team_id == team_id)).isEmpty) :
    calculate_team_points_per_match_season rm1 all1 team_id d =
      calculate_team_points_per_match_season rm2 all2 team_id d := by
  unfold calculate_team_points_per_match_season
  by_cases ht : team_id ≠ 1
  · rw [if_pos ht, if_pos ht]
    unfold get_all_opp_matches
    by_cases he : (all1.filter (fun m =>
        m.home_team_id == team_id || m.away_team_id == team_id)).isEmpty
      = true
    · rw [if_pos he, if_pos (hemp.symm.trans he)]
    · rw [if_neg he, if_neg (fun hc => he (hemp.trans hc))]
      cases hprev : get_previous_season (get_season d) with
      | noSeason => rfl
      | firstSeason => rfl
      | prev ps =>
        dsimp only
        have hw : (all1.filter (fun m =>
            m.home_team_id == team_id || m.away_team_id == team_id)).filter
              (fun m => decide (ps.start_date ≤ m.match_date) &&
                decide (m.match_date < d)) =
            (all2.filter (fun m =>
            m.home_team_id == team_id || m.away_team_id == team_id)).filter
              (fun m => decide (ps.start_date ≤ m.match_date) &&
                decide (m.match_date < d)) := by
          rw [List.filter_filter, List.filter_filter]
          exact filter_lt_restrict hall _ (fun m hm =>
            lt_of_lt_of_le (of_decide_eq_true
              (Bool.and_eq_true_iff.mp (Bool.and_eq_true_iff.mp hm).1).2) hd)
        rw [hw]
  · rw [if_neg ht, if_neg ht]
    cases hprev : get_previous_season (get_season d) with
    | noSeason => rfl
    | firstSeason => rfl
    | prev ps =>
      dsimp only
      have hw : rm1.filter (fun m =>
          decide (ps.start_date ≤ m.match_date) &&
          decide (m.match_date < d)) =
          rm2.filter (fun m =>
          decide (ps.start_date ≤ m.match_date) &&
          decide (m.match_date < d)) :=
        filter_lt_restrict hrm _ (fun m hm =>
          lt_of_lt_of_le (of_decide_eq_true
            (Bool.and_eq_true_iff.mp hm).2) hd)
      rw [hw]

theorem tier_invariant {rm1 rm2 all1 all2 : List MatchRow} {D d : ℕ}
    (hd : d ≤ D)
    (hrm : rm1.filter (fun m => decide (m.match_date < D)) =
      rm2.filter (fun m => decide (m.match_date < D)))
    (hall : all1.filter (fun m => decide (m.match_date < D)) =
      all2.filter (fun m => decide (m.match_date < D)))
    (team_id : ℤ)
    (hemp : (all1.filter (fun m =>
        m.home_team_id == team_id || m.away_team_id == team_id)).isEmpty =
      (all2.filter (fun m =>
        m.home_team_id == team_id || m.away_team_id == team_id)).isEmpty)
    (min_ppm : ℚ) (max_ppm : Option ℚ) :
    calculate_team_stats_against_tier rm1 all1 team_id d min_ppm max_ppm =
      calculate_team_stats_against_tier rm2 all2 team_id d min_ppm max_ppm
    := by
  unfold calculate_team_stats_against_tier
  by_cases ht : team_id ≠ 1
  · rw [if_pos ht, if_pos ht]
    unfold get_all_opp_matches
    by_cases he : (all1.filter (fun m =>
        m.home_team_id == team_id || m.away_team_id == team_id)).isEmpty
      = true
    · rw [if_pos he, if_pos (hemp.symm.trans he)]
    · rw [if_neg he, if_neg (fun hc => he (hemp.trans hc))]
      cases hprev : get_previous_season (get_season d) with
      | noSeason => rfl
      | firstSeason =>
        dsimp only
        have hw : (all1.filter (fun m =>
            m.home_team_id == team_id || m.away_team_id == team_id)).filter
              (fun m => decide (20190801 ≤ m.match_date) &&
                decide (m.match_date < d)) =
            (all2.filter (fun m =>
            m.home_team_id == team_id || m.away_team_id == team_id)).filter
              (fun m => decide (20190801 ≤ m.match_date) &&
                decide (m.match_date < d)) := by
          rw [List.filter_filter, List.filter_filter]
          exact filter_lt_restrict hall _ (fun m hm =>
            lt_of_lt_of_le (of_decide_eq_true
              (Bool.and_eq_true_iff.mp (Bool.and_eq_true_iff.mp hm).1).2) hd)
        rw [hw]
      | prev ps =>
        dsimp only
        have hw : (all1.filter (fun m =>
            m.home_team_id == team_id || m.away_team_id == team_id)).filter
              (fun m => decide (m.match_date < d) &&
                decide (ps.start_date ≤ m.match_date)) =
            (all2.filter (fun m =>
            m.home_team_id == team_id || m.away_team_id == team_id)).filter
              (fun m => decide (m.match_date < d) &&
                decide (ps.start_date ≤ m.match_date)) := by
          rw [List.filter_filter, List.filter_filter]
          exact filter_lt_restrict hall _ (fun m hm =>
            lt_of_lt_of_le (of_decide_eq_true
              (Bool.and_eq_true_iff.mp (Bool.and_eq_true_iff.mp hm).1).1) hd)
        rw [hw]
  · rw [if_neg ht, if_neg ht]
    cases hprev : get_previous_season (get_season d) with
    | noSeason => rfl
    | firstSeason => rfl
    | prev ps =>
      dsimp only
      have hw : rm1.filter (fun m =>
          decide (m.match_date < d) &&
          decide (ps.start_date < m.match_date)) =
          rm2.filter (fun m =>
          decide (m.match_date < d) &&
          decide (ps.start_date < m.match_date)) :=
        filter_lt_restrict hrm _ (fun m hm =>
          lt_of_lt_of_le (of_decide_eq_true
            (Bool.and_eq_true_iff.mp hm).1) hd)
      rw [hw]

/-- C1 (amended): every feature computed as of a date `d <= D` is
determined by the matches dated strictly before `D` — unconditionally for
rolling form and head-to-head, and for season PPM and tier statistics
under the proviso that the change does not alter whether the queried team
has any matches at all in the full table, since the `get_all_opp_matches`
emptiness check scans all dates and only the choice between the two
absence markers (`None`/`False` versus `np.nan`) can depend on it. -/
theorem C1_no_lookahead (D : ℕ) (rm1 rm2 all1 all2 : List MatchRow)
    (hrm : rm1.filter (fun m => decide (m.match_date < D)) =
      rm2.filter (fun m => decide (m.match_date < D)))
    (hall : all1.filter (fun m => decide (m.match_date < D)) =
      all2.filter (fun m => decide (m.match_date < D)))
    (d : ℕ) (hd : d ≤ D) :
    (∀ (team_id : ℤ) (n : ℕ),
      calculate_last_5_stats rm1 all1 d team_id n =
        calculate_last_5_stats rm2 all2 d team_id n) ∧
    (∀ (opp_id : ℤ) (last_n : Option ℕ),
      get_h2h_matches all1 opp_id d last_n =
        get_h2h_matches all2 opp_id d last_n) ∧
    (∀ (opp_id : ℤ) (n : ℕ),
      calculate_h2h_stats all1 opp_id d n =
        calculate_h2h_stats all2 opp_id d n) ∧
    (∀ team_id : ℤ,
      (all1.filter (fun m =>
        m.home_team_id == team_id || m.away_team_id == team_id)).isEmpty =
      (all2.filter (fun m =>
        m.home_team_id == team_id || m.away_team_id == team_id)).isEmpty →
      calculate_team_points_per_match_season rm1 all1 team_id d =
        calculate_team_points_per_match_season rm2 all2 team_id d ∧
      ∀ (min_ppm : ℚ) (max_ppm : Option ℚ),
        calculate_team_stats_against_tier rm1 all1 team_id d min_ppm
          max_ppm =
        calculate_team_stats_against_tier rm2 all2 team_id d min_ppm
          max_ppm) := by
  refine ⟨?_, ?_, ?_, ?_⟩
  · intro team_id n
    unfold calculate_last_5_stats
    by_cases ht : (team_id == 1) = true
    · rw [if_pos ht, if_pos ht, l5_rm_invariant hd hrm n]
    · rw [if_neg ht, if_neg ht, l5_opp_invariant hd hall team_id n]
  · intro opp_id last_n
    exact h2h_invariant hd hall opp_id last_n
  · intro opp_id n
    unfold calculate_h2h_stats
    rw [h2h_invariant hd hall opp_id (some n)]
  · intro team_id hemp
    exact ⟨season_invariant hd hrm hall team_id hemp,
      fun min_ppm max_ppm =>
        tier_invariant hd hrm hall team_id hemp min_ppm max_ppm⟩

theorem C1_witness :
    calculate_last_5_stats [] [cex_outside_seasons] 20220101 2 5 =
      calculate_last_5_stats [] [cex_outside_seasons, cex_future]
        20220101 2 5 ∧
    calculate_h2h_stats [cex_outside_seasons] 3 20220101 5 =
      calculate_h2h_stats [cex_outside_seasons, cex_future] 3 20220101 5 ∧
    calculate_team_points_per_match_season [] [cex_outside_seasons] 2
      20220101 =
      calculate_team_points_per_match_season []
        [cex_outside_seasons, cex_future] 2 20220101 ∧
    calculate_team_stats_against_tier [] [cex_outside_seasons] 2 20220101
      TOP_TIER_MIN_PPM none =
      calculate_team_stats_against_tier []
        [cex_outside_seasons, cex_future] 2 20220101 TOP_TIER_MIN_PPM
        none := by
  have h := C1_no_lookahead 20220101 [] [] [cex_outside_seasons]
    [cex_outside_seasons, cex_future] (by decide) (by decide) 20220101
    (le_refl _)
  exact ⟨h.1 2 5, h.2.2.1 3 5, (h.2.2.2 2 (by decide)).1,
    (h.2.2.2 2 (by decide)).2 TOP_TIER_MIN_PPM none⟩
